import Mathlib

/-!
Verification development for the AC server log watcher
(`ac_server_log_watch.py`) and the display helper in `app/main.py`.

Python strings are modelled as `List Char` (the scripts only ever meet
ASCII in the constructs verified here, so one `Char` corresponds to one
byte/character of the Python string).  Fallible Python code — an
uncaught exception such as the `ValueError` that `int()` raises on a
non-numeric field — is modelled with `Option`: `none` means the
exception propagates.
-/

namespace ACStats

/-- Python strings, modelled as lists of characters. -/
abbrev Str := List Char

/-- The ASCII whitespace characters recognised by `str.strip()` /
regex `\s` (the scripts never meet non-ASCII whitespace). -/
def pyIsSpace (c : Char) : Bool :=
  c = ' ' || c = '\t' || c = '\n' || c = '\r' || c = Char.ofNat 11 || c = Char.ofNat 12

/-- Python `str.strip()`: drop leading and trailing whitespace. -/
def pyStrip (l : Str) : Str :=
  ((l.dropWhile pyIsSpace).reverse.dropWhile pyIsSpace).reverse

/-- ASCII `str.lower()`, character by character. -/
def lowerStr (l : Str) : Str := l.map Char.toLower

/-- Python `s.split(sep)` for a one-character separator: splits on every
occurrence, keeping empty pieces, and returns `[s]` when the separator
is absent (`"".split(c) == ['']`). -/
def splitC (sep : Char) : Str → List Str
  | [] => [[]]
  | c :: cs =>
    if c = sep then [] :: splitC sep cs
    else
      match splitC sep cs with
      | [] => [[c]]
      | p :: ps => (c :: p) :: ps

/-- Python `int(s)` restricted to the character data reachable in this
program (fields produced by the regex class `[\d:.]` and by the
formatter, i.e. digits, `:` and `.`): a non-empty all-digit string
parses to its decimal value, anything else raises (`none`). -/
def pyIntOpt (l : Str) : Option Nat :=
  if l ≠ [] ∧ l.all Char.isDigit then
    some (l.foldl (fun acc c => 10 * acc + (c.toNat - 48)) 0)
  else none

/-- `lap_to_ms` from `ac_server_log_watch.py` (lines 63-71): split the
clock string on `:`; three fields are minutes/seconds/milliseconds, two
fields minutes/seconds, otherwise `int(parts[0])`.  `none` models the
uncaught `ValueError` from `int()` on a non-numeric field. -/
def lap_to_ms (l : Str) : Option Nat :=
  let parts := splitC ':' l
  match parts with
  | [m, s, ms] =>
    match pyIntOpt m, pyIntOpt s, pyIntOpt ms with
    | some a, some b, some c => some (a * 60000 + b * 1000 + c)
    | _, _, _ => none
  | [m, s] =>
    match pyIntOpt m, pyIntOpt s with
    | some a, some b => some (a * 60000 + b * 1000)
    | _, _ => none
  | _ => pyIntOpt (parts.headD [])

/-- Decimal digits of a natural number, most significant first
(Python `str(n)` / `f"{n}"`).  Structural recursion on a fuel bound —
`n + 1` is always enough, since `n / 10 < n` for `10 ≤ n`. -/
def natDigitsGo : Nat → Nat → Str → Str
  | 0, _, acc => acc
  | fuel + 1, n, acc =>
    if n < 10 then Char.ofNat (48 + n) :: acc
    else natDigitsGo fuel (n / 10) (Char.ofNat (48 + n % 10) :: acc)

def natDigits (n : Nat) : Str := natDigitsGo (n + 1) n []

/-- Python `f"{n:02d}"`. -/
def pad2 (n : Nat) : Str := if n < 10 then '0' :: natDigits n else natDigits n

/-- Python `f"{n:03d}"`. -/
def pad3 (n : Nat) : Str :=
  if n < 10 then '0' :: '0' :: natDigits n
  else if n < 100 then '0' :: natDigits n
  else natDigits n

/-- `format_laptime` from `app/main.py` (lines 63-68): render an
integer millisecond count as `M:SS.mmm`. -/
def format_laptime (ms : Nat) : Str :=
  let minutes := ms / 60000
  let seconds := (ms % 60000) / 1000
  let millis := ms % 1000
  natDigits minutes ++ ':' :: (pad2 seconds ++ '.' :: pad3 millis)

/-- Hexadecimal value of a character, as used by URL percent-decoding. -/
def hexVal (c : Char) : Option Nat :=
  if '0' ≤ c ∧ c ≤ '9' then some (c.toNat - 48)
  else if 'a' ≤ c ∧ c ≤ 'f' then some (c.toNat - 87)
  else if 'A' ≤ c ∧ c ≤ 'F' then some (c.toNat - 55)
  else none

/-- `urllib.parse.unquote`: replace each `%XX` hex escape by the byte it
denotes, leaving malformed escapes and all other characters alone.
(Python reassembles multi-byte UTF-8 escape runs; for the ASCII range
met in this program the two agree, and every input in the claims below
is percent-free, where `unquote` is the identity.) -/
def pyUnquote : Str → Str
  | [] => []
  | '%' :: a :: b :: rest =>
    match hexVal a, hexVal b with
    | some x, some y => Char.ofNat (16 * x + y) :: pyUnquote rest
    | _, _ => '%' :: pyUnquote (a :: b :: rest)
  | c :: rest => c :: pyUnquote rest

/-- `clean_tokens` from `ac_server_log_watch.py` (lines 73-76): drop
empty and noise tokens from a split path. -/
def badTokens : List Str :=
  [[], ['.'], ['.', '.'],
   ['c', 's', 'p'], ['c', 'o', 'n', 't', 'e', 'n', 't'],
   ['t', 'r', 'a', 'c', 'k', 's'], ['d', 'a', 't', 'a'],
   ['c', 'f', 'g'], ['0']]

def clean_tokens (ts : List Str) : List Str :=
  ts.filter (fun t => t ≠ [] ∧ ¬ badTokens.contains (lowerStr t))

/-- `parse_track_from_string` from `ac_server_log_watch.py`
(lines 78-108): URL-decode, turn backslashes into slashes, split on
`/`, strip and de-noise the segments; with two or more segments left,
combine the last two as `track-layout` (dropping a layout that contains
`.`, i.e. a file name); with one segment, return it; otherwise `None`.
The source reads the last two segments as `parts[-2]` / `parts[-1]`,
here the first two of the reversed list. -/
def parse_track_from_string (s : Str) : Option Str :=
  if s = [] then none
  else
    let s1 := pyUnquote s
    let s2 := s1.map (fun c => if c = '\\' then '/' else c)
    let parts := clean_tokens ((splitC '/' s2).map pyStrip)
    match parts.reverse with
    | [] => none
    | [t] => some t
    | layout :: track :: _ =>
      if layout.contains '.' then some track
      else some (track ++ '-' :: layout)

/-- Truthiness of an optional string (`if t1:` in Python):
present and non-empty. -/
def truthy : Option Str → Bool
  | some s => s ≠ []
  | none => false

def unknownS : Str := ['u', 'n', 'k', 'n', 'o', 'w', 'n']

/-- `normalize_track` from `ac_server_log_watch.py` (lines 110-138):
resolve both candidates with `parse_track_from_string` (a `None` or
empty candidate resolves to `None`), then prefer a layout-qualified
(`-`-containing) value, track candidate first; then, when both resolve
to different values sharing a non-empty base (text before the first
`-`), the track candidate; then any resolved value, track candidate
first; finally the literal `"unknown"`. -/
def normalize_track (tc cc : Option Str) : Str :=
  let t1 := match tc with
    | some s => if s ≠ [] then parse_track_from_string s else none
    | none => none
  let t2 := match cc with
    | some s => if s ≠ [] then parse_track_from_string s else none
    | none => none
  if truthy t1 ∧ (t1.getD []).contains '-' then t1.getD []
  else if truthy t2 ∧ (t2.getD []).contains '-' then t2.getD []
  else
    let base1 := (t1.getD []).takeWhile (· ≠ '-')
    let base2 := (t2.getD []).takeWhile (· ≠ '-')
    if truthy t1 ∧ truthy t2 ∧ t1 ≠ t2 ∧ base1 ≠ [] ∧ base2 ≠ [] ∧ base1 = base2 then
      t1.getD []
    else if truthy t1 then t1.getD []
    else if truthy t2 then t2.getD []
    else unknownS

/-! ### Line matchers

Each regex of the watcher is embedded as a function on the (already
stripped) line.  Group extraction follows the backtracking semantics of
Python's `re` engine, noted where it matters. -/

/-- Match a literal pattern (given lowercase) case-insensitively at the
start, returning the remainder.  `l.take pat.length` is shorter than
`pat` when `l` is, so no separate length test is needed. -/
def stripPrefixCI (pat : Str) (l : Str) : Option Str :=
  if lowerStr (l.take pat.length) = pat then some (l.drop pat.length) else none

/-- Match a literal pattern case-sensitively at the start. -/
def stripPrefixEx (pat : Str) (l : Str) : Option Str :=
  if l.take pat.length = pat then some (l.drop pat.length) else none

/-- `track_line_re`: `^TRACK=(?P<track>.+)$`, case-insensitive. -/
def matchTrackLine (l : Str) : Option Str :=
  match stripPrefixCI "track=".data l with
  | some r => if r ≠ [] then some r else none
  | none => none

/-- `config_line_re`: `^CONFIG=(?P<config>.+)$`, case-insensitive. -/
def matchConfigLine (l : Str) : Option Str :=
  match stripPrefixCI "config=".data l with
  | some r => if r ≠ [] then some r else none
  | none => none

/-- One anchored attempt of `info_track_re` / `info_config_re`:
`"KEY"\s*:\s*"(value)"` with a case-insensitive key; `info_track_re`
requires a non-empty value (`[^"]+`), `info_config_re` allows an empty
one (`[^"]*`). -/
def infoMatchAt (key : Str) (allowEmpty : Bool) (l : Str) : Option Str :=
  match stripPrefixCI ('"' :: (key ++ ['"'])) l with
  | none => none
  | some r1 =>
    match r1.dropWhile pyIsSpace with
    | ':' :: r3 =>
      match r3.dropWhile pyIsSpace with
      | '"' :: r5 =>
        let content := r5.takeWhile (· ≠ '"')
        match r5.drop content.length with
        | '"' :: _ => if allowEmpty ∨ content ≠ [] then some content else none
        | _ => none
      | _ => none
    | _ => none

/-- `re.search` for the info pattern: leftmost match wins. -/
def infoSearch (key : Str) (allowEmpty : Bool) : Str → Option Str
  | [] => none
  | c :: rest =>
    match infoMatchAt key allowEmpty (c :: rest) with
    | some g => some g
    | none => infoSearch key allowEmpty rest

/-- One anchored attempt of `content_path_re`:
`content/tracks(?:/|\\)(?P<rest>.+)`, case-insensitive literal. -/
def contentMatchAt (l : Str) : Option Str :=
  match stripPrefixCI "content/tracks".data l with
  | none => none
  | some r =>
    match r with
    | c :: rest => if (c = '/' ∨ c = '\\') ∧ rest ≠ [] then some rest else none
    | [] => none

/-- `re.search` for `content_path_re`. -/
def contentSearch : Str → Option Str
  | [] => none
  | c :: rest =>
    match contentMatchAt (c :: rest) with
    | some g => some g
    | none => contentSearch rest

/-- One anchored attempt of `cuts_re`: `Cuts:\s*(\d+)`,
case-insensitive; the group is the maximal digit run. -/
def cutsMatchAt (l : Str) : Option Nat :=
  match stripPrefixCI "cuts:".data l with
  | none => none
  | some r =>
    let ds := (r.dropWhile pyIsSpace).takeWhile Char.isDigit
    if ds = [] then none
    else some (ds.foldl (fun acc c => 10 * acc + (c.toNat - 48)) 0)

/-- `re.search` for `cuts_re`. -/
def cutsSearch : Str → Option Nat
  | [] => none
  | c :: rest =>
    match cutsMatchAt (c :: rest) with
    | some n => some n
    | none => cutsSearch rest

/-- First index (case-insensitive) of a lowercase pattern in the line:
`line.lower().index(pat)` guarded by `pat in line.lower()`. -/
def findCI (pat : Str) : Str → Option Nat
  | [] => none
  | c :: rest =>
    if lowerStr ((c :: rest).take pat.length) = pat then some 0
    else (findCI pat rest).map (· + 1)

/-- `requested_car_re`: `^REQUESTED CAR:\s*(?P<car>.+?)(\*)?$`.
After the literal prefix, `\s*` greedily eats whitespace; the lazy
`.+?` together with the optional `(\*)?$` makes the group the remainder
minus at most one trailing `*` (keeping it when it is the only
character).  When the remainder is pure whitespace the engine
backtracks `\s*` and the group is its last whitespace character. -/
def matchRequestedCar (l : Str) : Option Str :=
  match stripPrefixEx "REQUESTED CAR:".data l with
  | none => none
  | some r0 =>
    match r0.dropWhile pyIsSpace with
    | [] => if r0 ≠ [] then some [r0.getLastD ' '] else none
    | r =>
      if r.getLast? = some '*' ∧ 2 ≤ r.length then some r.dropLast else some r

/-- `driver_accepted_re`: `^DRIVER ACCEPTED FOR CAR\s+(?P<player>.+)$`.
The remainder must start with whitespace; the group is the remainder
after the greedy `\s+`, except that a pure-whitespace remainder of two
or more characters backtracks to a single-whitespace group. -/
def matchDriverAccepted (l : Str) : Option Str :=
  match stripPrefixEx "DRIVER ACCEPTED FOR CAR".data l with
  | none => none
  | some r0 =>
    match r0 with
    | [] => none
    | c :: _ =>
      if pyIsSpace c then
        match r0.dropWhile pyIsSpace with
        | [] => if 2 ≤ r0.length then some [r0.getLastD ' '] else none
        | g => some g
      else none

/-- Characters of the `laptime` group class `[\d:.]`. -/
def isLapChar (c : Char) : Bool := c.isDigit || c = ':' || c = '.'

/-- Does `r` match `\s+[\d:.]+$`?  If so return the `[\d:.]+` part. -/
def lapTailSplit (r : Str) : Option Str :=
  let t := r.dropWhile pyIsSpace
  if r.takeWhile pyIsSpace ≠ [] ∧ t ≠ [] ∧ t.all isLapChar then some t else none

/-- Smallest non-empty prefix `p` of `r` whose remainder matches
`\s+[\d:.]+$` (the lazy `.+?` of `lap_re`), with that tail's class
part. -/
def minSplit : Str → Option (Str × Str)
  | [] => none
  | c :: cs =>
    match lapTailSplit cs with
    | some t => some ([c], t)
    | none => (minSplit cs).map (fun pt => (c :: pt.1, pt.2))

/-- `lap_re`: `^LAP\s+(?P<player>.+?)\s+(?P<laptime>[\d:.]+)$`.
After the literal `LAP`, the engine prefers the greedy maximal `\s+`
and the shortest player (`minSplit`); when no split of the
post-whitespace text works it backtracks into the whitespace run,
which succeeds exactly when that text is itself a lap-time token and
at least three whitespace characters precede it — the player group is
then a single whitespace character. -/
def matchLap (line : Str) : Option (Str × Str) :=
  if line.take 3 = "LAP".data then
    let rest := line.drop 3
    let w1 := rest.takeWhile pyIsSpace
    let r2 := rest.dropWhile pyIsSpace
    if w1 = [] then none
    else
      match minSplit r2 with
      | some pt => some pt
      | none =>
        if r2 ≠ [] ∧ r2.all isLapChar ∧ 3 ≤ w1.length then
          some ([w1.getD (w1.length - 2) ' '], r2)
        else none
  else none

/-! ### Reconciler state

`ac_server_log_watch.py` lines 154-163 plus the SQLite sink: the
`lap_times` inserts are modelled as a list of rows (`get_or_create`
resolves names to ids; the rows are kept by name here), and the four
`print` calls of the lap pipeline as an event trace. -/

/-- An entry of `pending_cars_queue`: `{"player": None, "car": car}`. -/
structure PC where
  player : Option Str
  car : Str
deriving DecidableEq

/-- An entry of `pending_laps`. -/
structure PendingLap where
  player : Str
  laptime : Nat
  track : Str
deriving DecidableEq

/-- A row of `lap_times`, with names in place of foreign keys. -/
structure LapRow where
  player : Str
  car : Str
  track : Str
  laptime_ms : Nat
deriving DecidableEq

/-- The `last_lap` buffer: `{"player": pl, "lap_ms": lap_ms}`. -/
structure LapCand where
  player : Str
  lap_ms : Nat
deriving DecidableEq

/-- The lap-pipeline status prints: `[LAP]`, `[QUEUED]`,
`[LAP IGNORED - CUTS n]`, `[PENDING FLUSH]`. -/
inductive PEvent where
  | stored (player car track : Str) (ms : Nat)
  | queued (player track : Str) (ms : Nat)
  | ignored (player track : Str) (ms cuts : Nat)
  | flushed (player car track : Str) (ms : Nat)
deriving DecidableEq

structure RState where
  player_car_map : List (Str × Str)
  pending_cars_queue : List PC
  pending_laps : List PendingLap
  last_lap : Option LapCand
  observed_track_candidate : Option Str
  observed_config_candidate : Option Str
  laps : List LapRow
  events : List PEvent
deriving DecidableEq

def initState : RState :=
  { player_car_map := [], pending_cars_queue := [], pending_laps := [],
    last_lap := none, observed_track_candidate := none,
    observed_config_candidate := none, laps := [], events := [] }

/-- Python dict read `m.get(k)`: first (and only) binding of the key. -/
def dictGet (m : List (Str × Str)) (k : Str) : Option Str :=
  match m with
  | [] => none
  | (k', v) :: rest => if k' = k then some v else dictGet rest k

/-- Python dict write `m[k] = v`: overwrite the existing binding or
append a new one. -/
def dictSet (m : List (Str × Str)) (k v : Str) : List (Str × Str) :=
  match m with
  | [] => [(k, v)]
  | (k', v') :: rest =>
    if k' = k then (k, v) :: rest else (k', v') :: dictSet rest k v

/-- `list.remove(x)`: drop the first element equal to `x`. -/
def removeFirst {α : Type} [DecidableEq α] (a : α) : List α → List α
  | [] => []
  | b :: rest => if b = a then rest else b :: removeFirst a rest

/-- Python `str.isdigit()` for ASCII: non-empty and all digits. -/
def pyIsDigitStr (l : Str) : Bool := l ≠ [] && l.all Char.isDigit

/-- `'*'`-right-strip: `car.rstrip('*')`. -/
def rstripStars (l : Str) : Str := (l.reverse.dropWhile (· = '*')).reverse

/-- The assignment loop of the driver-accepted handler (lines 262-269):
walk the queue for the first entry with `player is None`, set its
player in place, then `pending_cars_queue.remove(pc)` deletes the first
entry equal to the mutated one from the whole queue. -/
def pyAssignLoop (player : Str) (done : List PC) : List PC → List PC × Option Str
  | [] => (done.reverse, none)
  | pc :: rest =>
    if pc.player = none then
      let pc' : PC := ⟨some player, pc.car⟩
      (removeFirst pc' (done.reverse ++ pc' :: rest), some pc.car)
    else pyAssignLoop player (pc :: done) rest

/-- The pending-lap flush loop (lines 274-285): iterate over a copy of
`pending_laps`, and for each entry of this player insert a row and
`pending_laps.remove(lap)` (first equal entry) from the live list. -/
def pyFlushLoop (player car : Str) :
    List PendingLap → List PendingLap → List LapRow → List PendingLap × List LapRow
  | [], cur, acc => (cur, acc)
  | lap :: rest, cur, acc =>
    if lap.player = player then
      pyFlushLoop player car rest (removeFirst lap cur)
        (acc ++ [⟨player, car, lap.track, lap.laptime⟩])
    else pyFlushLoop player car rest cur acc

def flushPending (s : RState) (player car : Str) : RState :=
  let (pl', rows) := pyFlushLoop player car s.pending_laps s.pending_laps []
  { s with pending_laps := pl',
           laps := s.laps ++ rows,
           events := s.events ++
             rows.map (fun r => PEvent.flushed r.player r.car r.track r.laptime_ms) }

/-- Driver-accepted handler (lines 255-286): skip empty or all-digit
player names; otherwise take the first waiting car request (FIFO) or
fall back to `"unknown"`, record the mapping, and flush this player's
pending laps. -/
def handleDriver (s : RState) (group : Str) : RState :=
  let player := pyStrip group
  if player = [] ∨ pyIsDigitStr player then s
  else
    let (q', carOpt) := pyAssignLoop player [] s.pending_cars_queue
    match carOpt with
    | some car =>
      flushPending
        { s with pending_cars_queue := q',
                 player_car_map := dictSet s.player_car_map player car }
        player car
    | none =>
      flushPending
        { s with player_car_map := dictSet s.player_car_map player unknownS }
        player unknownS

/-- Car-requested handler (lines 248-253): strip the group, drop
trailing `*`, enqueue with no player. -/
def handleRequested (s : RState) (group : Str) : RState :=
  let car := rstripStars (pyStrip group)
  { s with pending_cars_queue := s.pending_cars_queue ++ [⟨none, car⟩] }

/-- Cuts handler (lines 288-324): without a buffered lap candidate do
nothing; otherwise stamp the lap with the track normalised now, store
it when `cuts == 0` and the player's car is known and non-empty
(`if car:` is a truthiness test), queue it when not, discard it when
`cuts > 0` — and clear the candidate in every case. -/
def handleCuts (s : RState) (n : Nat) : RState :=
  match s.last_lap with
  | none => s
  | some ll =>
    let track := normalize_track s.observed_track_candidate s.observed_config_candidate
    let s1 : RState :=
      if n = 0 then
        match dictGet s.player_car_map ll.player with
        | some car =>
          if car ≠ [] then
            { s with laps := s.laps ++ [⟨ll.player, car, track, ll.lap_ms⟩],
                     events := s.events ++ [.stored ll.player car track ll.lap_ms] }
          else
            { s with pending_laps := s.pending_laps ++ [⟨ll.player, ll.lap_ms, track⟩],
                     events := s.events ++ [.queued ll.player track ll.lap_ms] }
        | none =>
          { s with pending_laps := s.pending_laps ++ [⟨ll.player, ll.lap_ms, track⟩],
                   events := s.events ++ [.queued ll.player track ll.lap_ms] }
      else
        { s with events := s.events ++ [.ignored ll.player track ll.lap_ms n] }
    { s1 with last_lap := none }

/-- `/INFO`-style track field (lines 196-198): update the track
candidate when the pattern occurs (no `continue`). -/
def applyInfoTrack (s : RState) (line : Str) : RState :=
  match infoSearch "track".data false line with
  | some t => { s with observed_track_candidate := some (pyStrip t) }
  | none => s

/-- `/INFO`-style config field (lines 199-201). -/
def applyInfoConfig (s : RState) (line : Str) : RState :=
  match infoSearch "config".data true line with
  | some c => { s with observed_config_candidate := some (pyStrip c) }
  | none => s

/-- `content/tracks` path handler (lines 203-219): parse the remainder;
a layout-qualified result replaces the track candidate and clears the
config candidate, a bare one stores the raw remainder. -/
def applyContentPath (s : RState) (rest : Str) : RState :=
  match parse_track_from_string rest with
  | some parsed =>
    if parsed.contains '-' then
      { s with observed_track_candidate := some parsed,
               observed_config_candidate := none }
    else { s with observed_track_candidate := some rest }
  | none => s

/-- The characters `re.split` uses in the ad-hoc `track=` block:
the class `[\s&",']`. -/
def trackEqSep (c : Char) : Bool :=
  pyIsSpace c || c = '&' || c = '"' || c = ',' || c = Char.ofNat 39

/-- Ad-hoc `track=` query handler (lines 221-243): locate the first
`track=` case-insensitively, cut the token at the next separator,
URL-decode it, and update the candidates as in the content-path case
(the raw-token branch stores the unquoted token).  The surrounding
`try/except` swallows any error, but none can occur in this pure
model. -/
def applyTrackEq (s : RState) (line : Str) : RState :=
  match findCI "track=".data line with
  | none => s
  | some idx =>
    let token := pyUnquote ((line.drop (idx + 6)).takeWhile (fun c => ¬ trackEqSep c))
    match parse_track_from_string token with
    | some parsed =>
      if parsed.contains '-' then
        { s with observed_track_candidate := some parsed,
                 observed_config_candidate := none }
      else { s with observed_track_candidate := some token }
    | none => s

/-- One iteration of the per-line pipeline (lines 176-332): strip the
line, skip it when empty, then run the dispatch chain in source order —
`TRACK=` / `CONFIG=` (with `continue`), the `/INFO` searches and the
`track=` block (no `continue`), the `content/tracks` search, car
requested, driver accepted, cuts, lap.  `none` models an uncaught
exception (the `ValueError` of `lap_to_ms`) killing the watcher. -/
def processLine (s : RState) (raw : Str) : Option RState :=
  let line := pyStrip raw
  if line = [] then some s
  else
    match matchTrackLine line with
    | some t => some { s with observed_track_candidate := some (pyStrip t) }
    | none =>
    match matchConfigLine line with
    | some c => some { s with observed_config_candidate := some (pyStrip c) }
    | none =>
      let s2 := applyInfoConfig (applyInfoTrack s line) line
      match contentSearch line with
      | some rest => some (applyContentPath s2 rest)
      | none =>
        let s3 := applyTrackEq s2 line
        match matchRequestedCar line with
        | some car => some (handleRequested s3 car)
        | none =>
        match matchDriverAccepted line with
        | some player => some (handleDriver s3 player)
        | none =>
        match cutsSearch line with
        | some n => some (handleCuts s3 n)
        | none =>
        match matchLap line with
        | some pt =>
          match lap_to_ms pt.2 with
          | some ms => some { s3 with last_lap := some ⟨pyStrip pt.1, ms⟩ }
          | none => none
        | none => some s3

/-- Feed a list of lines through the reconciler; on an uncaught
exception stop and report the state reached so far together with the
abort flag. -/
def runLines : RState → List Str → RState × Bool
  | s, [] => (s, false)
  | s, l :: ls =>
    match processLine s l with
    | some s' => runLines s' ls
    | none => (s, true)

/-! ### File tailer

Lines 169-176 and 334-335: per file, the watcher keeps a byte offset
(`0` on first sight), seeks to it, iterates the lines to end-of-file
and stores `f.tell()`.  File contents are modelled as character lists
(one `Char` per byte for the ASCII logs in question). -/

/-- Python text-mode line iteration: split at each newline, keeping the
newline with its line; a final fragment without a newline is still
yielded (when non-empty). -/
def pyLinesAux (cur : Str) : Str → List Str
  | [] => if cur = [] then [] else [cur.reverse]
  | c :: cs =>
    if c = '\n' then (cur.reverse ++ ['\n']) :: pyLinesAux [] cs
    else pyLinesAux (c :: cur) cs

def pyLines (l : Str) : List Str := pyLinesAux [] l

/-- One poll of one file: resolve the stored offset (`0` when the file
is new to `file_positions`), read the lines from there to end-of-file,
and return them with the new offset `f.tell()` = the file length. -/
def pollFile (content : Str) (stored : Option Nat) : List Str × Nat :=
  (pyLines (content.drop (stored.getD 0)), content.length)

/-! ## Theorems -/

/-- Claim C4, counterexample: with track-candidate `"csp/0/ks_nordschleife"`
and config-candidate `"touristenfahrten"`, `normalize_track` does NOT
return `"ks_nordschleife-touristenfahrten"`: the two candidates resolve
to single tokens with different bases, and the merge branch never
concatenates a track token with a config token. -/
theorem C4_normalize_merge_cex :
    normalize_track (some "csp/0/ks_nordschleife".data) (some "touristenfahrten".data)
      ≠ "ks_nordschleife-touristenfahrten".data := by decide

/-- Claim C4, amended: given track-candidate `"csp/0/ks_nordschleife"` and
config-candidate `"touristenfahrten"`, the canonical track key computed
by `normalize_track` is `"ks_nordschleife"` — the resolved track
candidate wins and the config candidate is dropped, because neither
resolved value contains a layout separator and their bases differ. -/
theorem C4_normalize_merge_amended :
    normalize_track (some "csp/0/ks_nordschleife".data) (some "touristenfahrten".data)
      = "ks_nordschleife".data := by decide

/-- Claim C5: car requests are matched to driver-accepted lines strictly
first-in-first-out — after car requests for `A` then `B` and
driver-accepted lines for `P1` then `P2`, the map sends `P1` to `A` and
`P2` to `B` — and a driver-accepted line arriving with no waiting
request maps the player to the literal `"unknown"`. -/
theorem C5_fifo_car_assignment :
    (dictGet (runLines initState (["REQUESTED CAR: A", "REQUESTED CAR: B",
        "DRIVER ACCEPTED FOR CAR P1", "DRIVER ACCEPTED FOR CAR P2"].map String.data)).1.player_car_map
        "P1".data = some "A".data
     ∧ dictGet (runLines initState (["REQUESTED CAR: A", "REQUESTED CAR: B",
        "DRIVER ACCEPTED FOR CAR P1", "DRIVER ACCEPTED FOR CAR P2"].map String.data)).1.player_car_map
        "P2".data = some "B".data)
    ∧ dictGet (runLines initState
        (["DRIVER ACCEPTED FOR CAR P3"].map String.data)).1.player_car_map
        "P3".data = some unknownS := by decide

/-- Claim C1, counterexample: the line `LAP X 1:23.456` followed by
`Cuts: 0` does not store one 83456 ms lap for `X` — the lap-report
matches `lap_re`, but `lap_to_ms` splits `"1:23.456"` on `:` into two
fields and `int("23.456")` raises an uncaught `ValueError`, so no lap
at all is stored and the run aborts. -/
theorem C1_cuts_handling_cex :
    (runLines initState (["LAP X 1:23.456", "Cuts: 0"].map String.data)).1.laps = []
    ∧ (runLines initState (["LAP X 1:23.456", "Cuts: 0"].map String.data)).2 = true := by
  decide

/-- Claim C1, amended: with the colon-separated form the parser implements
(`LAP X 1:23:456`) and with `X`'s car mapping established, `Cuts: 0`
stores exactly one lap of 83456 ms for `X`, while `Cuts: 1` leaves
zero laps (stored or queued) for `X`. -/
theorem C1_cuts_handling_amended :
    (runLines initState (["REQUESTED CAR: abc", "DRIVER ACCEPTED FOR CAR X",
        "LAP X 1:23:456", "Cuts: 0"].map String.data)).1.laps
      = [⟨"X".data, "abc".data, unknownS, 83456⟩]
    ∧ (runLines initState (["REQUESTED CAR: abc", "DRIVER ACCEPTED FOR CAR X",
        "LAP X 1:23:456", "Cuts: 1"].map String.data)).1.laps = []
    ∧ (runLines initState (["REQUESTED CAR: abc", "DRIVER ACCEPTED FOR CAR X",
        "LAP X 1:23:456", "Cuts: 1"].map String.data)).1.pending_laps = [] := by
  decide

/-- Claim C2, counterexample: the round-trip fails already at `ms = 0`
(within the claimed range `[0, 5999999]`): `format_laptime 0` is
`"0:00.000"`, whose seconds field `"00.000"` is not an integer for the
colon-splitting parser. -/
theorem C2_roundtrip_cex : lap_to_ms (format_laptime 0) ≠ some 0 := by decide

/-- Claim C3, counterexample: the line `LAP Y 1:0.5` (a malformed duration —
matched by `lap_re`, rejected by `lap_to_ms`) aborts the run instead of
being skipped: `processLine` propagates the uncaught `ValueError`, and
a run containing the line stops there. -/
theorem C3_error_handling_cex :
    processLine initState "LAP Y 1:0.5".data = none
    ∧ (runLines initState (["LAP Y 1:0.5", "REQUESTED CAR: a"].map String.data)).2 = true
    ∧ (runLines initState (["LAP Y 1:0.5", "REQUESTED CAR: a"].map String.data)).1.pending_cars_queue
        = [] := by
  decide

/-- Claim C9, counterexample: a confirmed lap is buffered as pending even
though the player HAS a car mapping — after `REQUESTED CAR: *` the
queued car name is the empty string, a driver-accepted line maps `P` to
`""`, and the cuts handler's truthiness test `if car:` then queues the
lap instead of storing it. -/
theorem C9_unknown_car_cex :
    dictGet (runLines initState (["REQUESTED CAR: *", "DRIVER ACCEPTED FOR CAR P",
        "LAP P 1:2:3", "Cuts: 0"].map String.data)).1.player_car_map "P".data = some []
    ∧ (runLines initState (["REQUESTED CAR: *", "DRIVER ACCEPTED FOR CAR P",
        "LAP P 1:2:3", "Cuts: 0"].map String.data)).1.pending_laps
        = [⟨"P".data, 62003, unknownS⟩]
    ∧ (runLines initState (["REQUESTED CAR: *", "DRIVER ACCEPTED FOR CAR P",
        "LAP P 1:2:3", "Cuts: 0"].map String.data)).1.laps = [] := by
  decide

theorem charOfNat_digit (n : Nat) (h : n < 10) : (Char.ofNat (48 + n)).isDigit = true := by
  interval_cases n <;> decide

theorem natDigitsGo_digits : ∀ (fuel n : Nat) (acc : Str),
    (∀ c ∈ acc, c.isDigit = true) → ∀ c ∈ natDigitsGo fuel n acc, c.isDigit = true := by
  intro fuel
  induction fuel with
  | zero => intro n acc hacc c hc; exact hacc c hc
  | succ fuel ih =>
    intro n acc hacc c hc
    rw [natDigitsGo] at hc
    split at hc
    · rcases List.mem_cons.mp hc with hc | hc
      · subst hc; exact charOfNat_digit n (by assumption)
      · exact hacc c hc
    · refine ih (n / 10) _ ?_ c hc
      intro d hd
      rcases List.mem_cons.mp hd with hd | hd
      · subst hd; exact charOfNat_digit (n % 10) (Nat.mod_lt n (by omega))
      · exact hacc d hd

theorem natDigits_digits (n : Nat) : ∀ c ∈ natDigits n, c.isDigit = true :=
  natDigitsGo_digits (n + 1) n [] (by intro c hc; cases hc)

theorem pad2_digits (n : Nat) : ∀ c ∈ pad2 n, c.isDigit = true := by
  intro c hc
  unfold pad2 at hc
  split at hc
  · rcases List.mem_cons.mp hc with hc | hc
    · subst hc; decide
    · exact natDigits_digits n c hc
  · exact natDigits_digits n c hc

theorem pad3_digits (n : Nat) : ∀ c ∈ pad3 n, c.isDigit = true := by
  intro c hc
  unfold pad3 at hc
  split at hc
  · rcases List.mem_cons.mp hc with hc | hc
    · subst hc; decide
    · rcases List.mem_cons.mp hc with hc | hc
      · subst hc; decide
      · exact natDigits_digits n c hc
  · split at hc
    · rcases List.mem_cons.mp hc with hc | hc
      · subst hc; decide
      · exact natDigits_digits n c hc
    · exact natDigits_digits n c hc

theorem splitC_not_mem (sep : Char) (l : Str) (h : sep ∉ l) : splitC sep l = [l] := by
  induction l with
  | nil => rfl
  | cons c cs ih =>
    have hc : ¬ c = sep := fun he => h (he ▸ List.mem_cons_self c cs)
    have hcs : sep ∉ cs := fun hm => h (List.mem_cons_of_mem _ hm)
    simp only [splitC, if_neg hc, ih hcs]

theorem splitC_append (sep : Char) (a b : Str) (h : sep ∉ a) :
    splitC sep (a ++ sep :: b) = a :: splitC sep b := by
  induction a with
  | nil => simp [splitC]
  | cons c a ih =>
    have hc : ¬ c = sep := fun he => h (he ▸ List.mem_cons_self c a)
    have ha : sep ∉ a := fun hm => h (List.mem_cons_of_mem _ hm)
    simp only [List.cons_append, splitC, if_neg hc, List.append_eq, ih ha]

/-- Claim C2, amended: for every `ms` in `[0, 5999999]` the round-trip FAILS:
`lap_to_ms (format_laptime ms)` is `none` (an uncaught `ValueError` in
the script), because `format_laptime` renders `M:SS.mmm` with a dot
before the milliseconds while `lap_to_ms` splits on `:` only, leaving
the non-numeric seconds field `SS.mmm`. -/
theorem C2_roundtrip_amended (ms : Nat) (_hle : ms ≤ 5999999) :
    lap_to_ms (format_laptime ms) = none := by
  have hA : ':' ∉ natDigits (ms / 60000) := by
    intro hm
    have := natDigits_digits (ms / 60000) ':' hm
    simp at this
  have hB : ':' ∉ pad2 (ms % 60000 / 1000) ++ '.' :: pad3 (ms % 1000) := by
    intro hm
    rcases List.mem_append.mp hm with hm | hm
    · have := pad2_digits _ ':' hm; simp at this
    · rcases List.mem_cons.mp hm with hm | hm
      · cases hm
      · have := pad3_digits _ ':' hm; simp at this
  have hdot : ('.' : Char) ∈ pad2 (ms % 60000 / 1000) ++ '.' :: pad3 (ms % 1000) :=
    List.mem_append_right _ (List.mem_cons_self _ _)
  unfold format_laptime lap_to_ms
  simp only [splitC_append ':' _ _ hA, splitC_not_mem ':' _ hB]
  have hB2 : pyIntOpt (pad2 (ms % 60000 / 1000) ++ '.' :: pad3 (ms % 1000)) = none := by
    unfold pyIntOpt
    rw [if_neg]
    intro hcon
    have := List.all_eq_true.mp hcon.2 '.' hdot
    simp at this
  cases hA2 : pyIntOpt (natDigits (ms / 60000)) <;> simp [hB2]

/-- Claim C2, witness for the amended round-trip theorem at `ms = 83456`. -/
theorem C2_roundtrip_amended_witness :
    83456 ≤ 5999999 ∧ lap_to_ms (format_laptime 83456) = none :=
  ⟨by decide, C2_roundtrip_amended 83456 (by decide)⟩

/-! ### Branch lemmas for the per-line pipeline -/

theorem applyInfoTrack_none {s : RState} {l : Str}
    (h : infoSearch "track".data false l = none) : applyInfoTrack s l = s := by
  unfold applyInfoTrack; rw [h]

theorem applyInfoConfig_none {s : RState} {l : Str}
    (h : infoSearch "config".data true l = none) : applyInfoConfig s l = s := by
  unfold applyInfoConfig; rw [h]

theorem applyTrackEq_none {s : RState} {l : Str}
    (h : findCI "track=".data l = none) : applyTrackEq s l = s := by
  unfold applyTrackEq; rw [h]

/-- A line on which every pattern up to the cuts search fails, and the
cuts search succeeds, lands in the cuts handler. -/
theorem processLine_cuts_branch (s : RState) (raw : Str) (n : Nat)
    (h0 : pyStrip raw ≠ [])
    (h1 : matchTrackLine (pyStrip raw) = none)
    (h2 : matchConfigLine (pyStrip raw) = none)
    (h3 : infoSearch "track".data false (pyStrip raw) = none)
    (h4 : infoSearch "config".data true (pyStrip raw) = none)
    (h5 : contentSearch (pyStrip raw) = none)
    (h6 : findCI "track=".data (pyStrip raw) = none)
    (h7 : matchRequestedCar (pyStrip raw) = none)
    (h8 : matchDriverAccepted (pyStrip raw) = none)
    (h9 : cutsSearch (pyStrip raw) = some n) :
    processLine s raw = some (handleCuts s n) := by
  unfold processLine
  simp only [if_neg h0, h1, h2, h5, h7, h8, h9,
    applyInfoTrack_none h3, applyInfoConfig_none h4, applyTrackEq_none h6]

/-- A line on which every earlier pattern fails and `lap_re` succeeds
reaches the lap branch: a parseable duration replaces the candidate, an
unparseable one kills the run. -/
theorem processLine_lap_branch (s : RState) (raw : Str) (pl t : Str) (r : Option Nat)
    (h0 : pyStrip raw ≠ [])
    (h1 : matchTrackLine (pyStrip raw) = none)
    (h2 : matchConfigLine (pyStrip raw) = none)
    (h3 : infoSearch "track".data false (pyStrip raw) = none)
    (h4 : infoSearch "config".data true (pyStrip raw) = none)
    (h5 : contentSearch (pyStrip raw) = none)
    (h6 : findCI "track=".data (pyStrip raw) = none)
    (h7 : matchRequestedCar (pyStrip raw) = none)
    (h8 : matchDriverAccepted (pyStrip raw) = none)
    (h9 : cutsSearch (pyStrip raw) = none)
    (h10 : matchLap (pyStrip raw) = some (pl, t))
    (h11 : lap_to_ms t = r) :
    processLine s raw =
      match r with
      | some ms => some { s with last_lap := some ⟨pyStrip pl, ms⟩ }
      | none => none := by
  unfold processLine
  simp only [if_neg h0, h1, h2, h5, h7, h8, h9, h10,
    applyInfoTrack_none h3, applyInfoConfig_none h4, applyTrackEq_none h6, h11]
  cases r <;> rfl

theorem handleCuts_no_candidate {s : RState} {n : Nat} (h : s.last_lap = none) :
    handleCuts s n = s := by
  unfold handleCuts; rw [h]

theorem handleCuts_clears {s : RState} {n : Nat} {c : LapCand} (h : s.last_lap = some c) :
    (handleCuts s n).last_lap = none := by
  unfold handleCuts
  rw [h]

/-- Claim C3, amended: the run survives every line EXCEPT a lap-report
whose duration `lap_to_ms` rejects — for any state, a line that does
not match `lap_re` with an unparseable duration is processed without
aborting (the watcher has no error handling around the lap branch, so
such a line is the one fatal case; the surviving lines follow their
branch semantics rather than being skipped). -/
theorem C3_error_handling_amended (s : RState) (raw : Str)
    (h : ∀ pl t, matchLap (pyStrip raw) = some (pl, t) → lap_to_ms t ≠ none) :
    (processLine s raw).isSome = true := by
  simp only [processLine]
  split
  · rfl
  · split
    · rfl
    · split
      · rfl
      · split
        · rfl
        · split
          · rfl
          · split
            · rfl
            · split
              · rfl
              · split
                · split
                  · rfl
                  · rename_i pt hmatch msv hnone
                    exact absurd hnone (h pt.1 pt.2 (by rw [hmatch]))
                · rfl

/-- Claim C3, witness for the amended theorem: a cuts line is processed
without aborting. -/
theorem C3_error_handling_amended_witness :
    (processLine initState "Cuts: 3".data).isSome = true :=
  C3_error_handling_amended initState "Cuts: 3".data (fun pl t hh => by
    rw [(by decide : matchLap (pyStrip "Cuts: 3".data) = none)] at hh
    exact Option.noConfusion hh)

/-- Claim C6: between processed lines the reconciler holds at most one
lap candidate (`last_lap` is a single `Option`), and for lines whose
only classification is lap-report resp. cuts-report (no co-occurring
track/config patterns): a lap-report line replaces any existing
candidate with the new one and changes nothing else; a cuts-report line
with a buffered candidate leaves `last_lap = none` whatever the cut
count; and a cuts-report line with no buffered candidate returns the
state unchanged, emitting nothing. -/
theorem C6_lap_candidate_buffer
    (s1 s2 s3 : RState) (lr cr pl t : Str) (ms n : Nat) (c : LapCand)
    (a0 : pyStrip lr ≠ []) (a1 : matchTrackLine (pyStrip lr) = none)
    (a2 : matchConfigLine (pyStrip lr) = none)
    (a3 : infoSearch "track".data false (pyStrip lr) = none)
    (a4 : infoSearch "config".data true (pyStrip lr) = none)
    (a5 : contentSearch (pyStrip lr) = none)
    (a6 : findCI "track=".data (pyStrip lr) = none)
    (a7 : matchRequestedCar (pyStrip lr) = none)
    (a8 : matchDriverAccepted (pyStrip lr) = none)
    (a9 : cutsSearch (pyStrip lr) = none)
    (a10 : matchLap (pyStrip lr) = some (pl, t))
    (a11 : lap_to_ms t = some ms)
    (b0 : pyStrip cr ≠ []) (b1 : matchTrackLine (pyStrip cr) = none)
    (b2 : matchConfigLine (pyStrip cr) = none)
    (b3 : infoSearch "track".data false (pyStrip cr) = none)
    (b4 : infoSearch "config".data true (pyStrip cr) = none)
    (b5 : contentSearch (pyStrip cr) = none)
    (b6 : findCI "track=".data (pyStrip cr) = none)
    (b7 : matchRequestedCar (pyStrip cr) = none)
    (b8 : matchDriverAccepted (pyStrip cr) = none)
    (b9 : cutsSearch (pyStrip cr) = some n)
    (h2 : s2.last_lap = some c) (h3 : s3.last_lap = none) :
    processLine s1 lr = some { s1 with last_lap := some ⟨pyStrip pl, ms⟩ }
    ∧ Option.map (fun st => st.last_lap) (processLine s2 cr) = some none
    ∧ processLine s3 cr = some s3 := by
  refine ⟨?_, ?_, ?_⟩
  · have := processLine_lap_branch s1 lr pl t (some ms) a0 a1 a2 a3 a4 a5 a6 a7 a8 a9 a10 a11
    simpa using this
  · rw [processLine_cuts_branch s2 cr n b0 b1 b2 b3 b4 b5 b6 b7 b8 b9]
    simp [handleCuts_clears h2]
  · rw [processLine_cuts_branch s3 cr n b0 b1 b2 b3 b4 b5 b6 b7 b8 b9,
      handleCuts_no_candidate h3]

/-- Claim C6, witness: a concrete lap line replacing the (empty)
candidate, and a concrete `Cuts: 7` line against a state with and
without a buffered candidate. -/
theorem C6_lap_candidate_buffer_witness :
    processLine initState "LAP X 1:2:3".data
        = some { initState with last_lap := some ⟨pyStrip "X".data, 62003⟩ }
    ∧ Option.map (fun st => st.last_lap)
        (processLine { initState with last_lap := some ⟨"Z".data, 5⟩ } "Cuts: 7".data)
        = some none
    ∧ processLine initState "Cuts: 7".data = some initState :=
  C6_lap_candidate_buffer initState { initState with last_lap := some ⟨"Z".data, 5⟩ }
    initState "LAP X 1:2:3".data "Cuts: 7".data "X".data "1:2:3".data 62003 7 ⟨"Z".data, 5⟩
    (by decide) (by decide) (by decide) (by decide) (by decide) (by decide) (by decide)
    (by decide) (by decide) (by decide) (by decide) (by decide)
    (by decide) (by decide) (by decide) (by decide) (by decide) (by decide) (by decide)
    (by decide) (by decide) (by decide)
    rfl rfl

/-- Claim C9, amended: for a cuts-report line with count `0` and a
buffered candidate, the lap is stored immediately with the mapped car
name whenever the player's mapped car name is ANY non-empty string —
in particular the literal `"unknown"` — with the pending queue
untouched; and it is buffered as a pending lap (with storage untouched)
when the player has no car mapping at all OR the mapped name is the
empty string (the handler tests `if car:`, i.e. truthiness, not
presence).  The two branches are full state equalities and exhaust the
possible mapping values, so a confirmed lap is buffered exactly in the
no-mapping-or-empty case. -/
theorem C9_car_mapping_amended (s1 s2 : RState) (cr : Str) (c1 c2 : LapCand) (car : Str)
    (b0 : pyStrip cr ≠ []) (b1 : matchTrackLine (pyStrip cr) = none)
    (b2 : matchConfigLine (pyStrip cr) = none)
    (b3 : infoSearch "track".data false (pyStrip cr) = none)
    (b4 : infoSearch "config".data true (pyStrip cr) = none)
    (b5 : contentSearch (pyStrip cr) = none)
    (b6 : findCI "track=".data (pyStrip cr) = none)
    (b7 : matchRequestedCar (pyStrip cr) = none)
    (b8 : matchDriverAccepted (pyStrip cr) = none)
    (b9 : cutsSearch (pyStrip cr) = some 0)
    (h1 : s1.last_lap = some c1)
    (g1 : dictGet s1.player_car_map c1.player = some car)
    (hcar : car ≠ [])
    (h2 : s2.last_lap = some c2)
    (g2 : dictGet s2.player_car_map c2.player = none
        ∨ dictGet s2.player_car_map c2.player = some []) :
    processLine s1 cr = some { s1 with
        laps := s1.laps ++ [⟨c1.player, car,
          normalize_track s1.observed_track_candidate s1.observed_config_candidate, c1.lap_ms⟩],
        events := s1.events ++ [.stored c1.player car
          (normalize_track s1.observed_track_candidate s1.observed_config_candidate) c1.lap_ms],
        last_lap := none }
    ∧ processLine s2 cr = some { s2 with
        pending_laps := s2.pending_laps ++ [⟨c2.player, c2.lap_ms,
          normalize_track s2.observed_track_candidate s2.observed_config_candidate⟩],
        events := s2.events ++ [.queued c2.player
          (normalize_track s2.observed_track_candidate s2.observed_config_candidate) c2.lap_ms],
        last_lap := none } := by
  constructor
  · rw [processLine_cuts_branch s1 cr 0 b0 b1 b2 b3 b4 b5 b6 b7 b8 b9]
    unfold handleCuts
    rw [h1]
    simp only [if_pos rfl, g1, if_true]
    rw [if_pos hcar]
  · rw [processLine_cuts_branch s2 cr 0 b0 b1 b2 b3 b4 b5 b6 b7 b8 b9]
    unfold handleCuts
    rw [h2]
    rcases g2 with g2 | g2
    · simp only [if_pos rfl, g2, if_true]
    · simp only [if_pos rfl, g2, if_true]
      rw [if_neg (by simp : ¬ ([] : Str) ≠ [])]

/-- Claim C9, witness for the amended theorem: a player mapped to
`"unknown"` gets the lap stored, a player with no mapping gets it
queued. -/
theorem C9_car_mapping_amended_witness :
    processLine
        { initState with
          player_car_map := [("P".data, unknownS)]
          last_lap := some ⟨"P".data, 83456⟩ } "Cuts: 0".data
      = some { { initState with
                 player_car_map := [("P".data, unknownS)]
                 last_lap := some (⟨"P".data, 83456⟩ : LapCand) } with
               laps := initState.laps ++ [⟨"P".data, unknownS,
                 normalize_track initState.observed_track_candidate
                   initState.observed_config_candidate, 83456⟩]
               events := initState.events ++ [.stored "P".data unknownS
                 (normalize_track initState.observed_track_candidate
                   initState.observed_config_candidate) 83456]
               last_lap := none }
    ∧ processLine { initState with last_lap := some ⟨"Q".data, 90000⟩ } "Cuts: 0".data
      = some { { initState with last_lap := some (⟨"Q".data, 90000⟩ : LapCand) } with
               pending_laps := initState.pending_laps ++ [⟨"Q".data, 90000,
                 normalize_track initState.observed_track_candidate
                   initState.observed_config_candidate⟩]
               events := initState.events ++ [.queued "Q".data
                 (normalize_track initState.observed_track_candidate
                   initState.observed_config_candidate) 90000]
               last_lap := none } :=
  C9_car_mapping_amended
    { initState with
      player_car_map := [("P".data, unknownS)]
      last_lap := some ⟨"P".data, 83456⟩ }
    { initState with last_lap := some ⟨"Q".data, 90000⟩ }
    "Cuts: 0".data ⟨"P".data, 83456⟩ ⟨"Q".data, 90000⟩ unknownS
    (by decide) (by decide) (by decide) (by decide) (by decide) (by decide) (by decide)
    (by decide) (by decide) (by decide)
    rfl (by decide) (by decide) rfl (Or.inl rfl)

theorem pyUnquote_cons_ne (c : Char) (cs : Str) (hc : ¬ c = '%') :
    pyUnquote (c :: cs) = c :: pyUnquote cs := by
  rw [pyUnquote.eq_def]
  split
  · rename_i heq
    exact (List.cons_ne_nil c cs heq).elim
  · rename_i a b rest heq
    injection heq with h1 h2
    exact absurd h1 hc
  · rename_i heq
    injection heq with h1 h2
    rw [h1, h2]

theorem pyUnquote_no_pct (l : Str) (h : '%' ∉ l) : pyUnquote l = l := by
  induction l with
  | nil => rfl
  | cons c cs ih =>
    have hc : ¬ c = '%' := fun he => h (he ▸ List.mem_cons_self c cs)
    have hcs : '%' ∉ cs := fun hm => h (List.mem_cons_of_mem _ hm)
    rw [pyUnquote_cons_ne c cs hc, ih hcs]

theorem map_bs_noop (l : Str) (h : '\\' ∉ l) :
    l.map (fun c => if c = '\\' then '/' else c) = l := by
  induction l with
  | nil => rfl
  | cons c cs ih =>
    have hc : ¬ c = '\\' := fun he => h (he ▸ List.mem_cons_self c cs)
    have hcs : '\\' ∉ cs := fun hm => h (List.mem_cons_of_mem _ hm)
    simp only [List.map_cons, if_neg hc, ih hcs]

/-- Claim C8: the track-token extraction is the identity on an
already-normalized `track-layout` string — one that contains a `-`, no
path separator (`/` or `\`), no URL escape (`%`), no `.`, is not a
noise token, and (being a normalizer output) carries no surrounding
whitespace. -/
theorem C8_extract_track_token_idem (l : Str)
    (hdash : '-' ∈ l)
    (hsl : '/' ∉ l) (hbs : '\\' ∉ l) (hpct : '%' ∉ l) (hdot : '.' ∉ l)
    (hnoise : ¬ badTokens.contains (lowerStr l))
    (hstrip : pyStrip l = l) :
    parse_track_from_string l = some l := by
  have hne : l ≠ [] := by rintro rfl; cases hdash
  have hnoise2 : lowerStr l ∉ badTokens := by
    intro hm
    exact hnoise (List.elem_eq_true_of_mem hm)
  have hclean : clean_tokens [l] = [l] := by
    unfold clean_tokens
    simp [hne, hnoise2]
  simp only [parse_track_from_string, if_neg hne, pyUnquote_no_pct l hpct, map_bs_noop l hbs,
    splitC_not_mem '/' l hsl, List.map_cons, List.map_nil, hstrip, hclean]
  rfl

/-- Claim C8, witness at the normalized key
`"ks_nordschleife-touristenfahrten"`. -/
theorem C8_extract_track_token_idem_witness :
    parse_track_from_string "ks_nordschleife-touristenfahrten".data
      = some "ks_nordschleife-touristenfahrten".data :=
  C8_extract_track_token_idem "ks_nordschleife-touristenfahrten".data
    (by decide) (by decide) (by decide) (by decide) (by decide) (by decide) (by decide)

/-- Claim C7: for a file that only grows by appended bytes between two
successive polls, the stored offset is non-decreasing, equals the file
length after each poll, and the second poll yields exactly the lines of
the appended suffix. -/
theorem C7_tailer_offset_monotone (c1 app : Str) (p0 : Option Nat)
    (h : p0.getD 0 ≤ c1.length) :
    (pollFile c1 p0).2 = c1.length
    ∧ p0.getD 0 ≤ (pollFile c1 p0).2
    ∧ (pollFile c1 p0).2 ≤ (pollFile (c1 ++ app) (some (pollFile c1 p0).2)).2
    ∧ (pollFile (c1 ++ app) (some (pollFile c1 p0).2)).2 = (c1 ++ app).length
    ∧ (pollFile (c1 ++ app) (some (pollFile c1 p0).2)).1 = pyLines app := by
  refine ⟨rfl, h, ?_, rfl, ?_⟩
  · simp [pollFile]
  · simp only [pollFile, Option.getD_some, List.drop_left]

/-- Claim C7, witness: a first poll of `"a\nb"` from a fresh offset and
a second poll after `"c\nd\n"` was appended. -/
theorem C7_tailer_offset_monotone_witness :
    (none : Option Nat).getD 0 ≤ "a\nb".data.length
    ∧ ((pollFile "a\nb".data none).2 = "a\nb".data.length
      ∧ (none : Option Nat).getD 0 ≤ (pollFile "a\nb".data none).2
      ∧ (pollFile "a\nb".data none).2
          ≤ (pollFile ("a\nb".data ++ "c\nd\n".data) (some (pollFile "a\nb".data none).2)).2
      ∧ (pollFile ("a\nb".data ++ "c\nd\n".data) (some (pollFile "a\nb".data none).2)).2
          = ("a\nb".data ++ "c\nd\n".data).length
      ∧ (pollFile ("a\nb".data ++ "c\nd\n".data) (some (pollFile "a\nb".data none).2)).1
          = pyLines "c\nd\n".data) :=
  ⟨by decide, C7_tailer_offset_monotone "a\nb".data "c\nd\n".data none (by decide)⟩

/-! ### Queue invariant (claim C10) -/

theorem flushPending_queue (s : RState) (p c : Str) :
    (flushPending s p c).pending_cars_queue = s.pending_cars_queue := rfl

theorem applyInfoTrack_queue (s : RState) (l : Str) :
    (applyInfoTrack s l).pending_cars_queue = s.pending_cars_queue := by
  unfold applyInfoTrack; split <;> rfl

theorem applyInfoConfig_queue (s : RState) (l : Str) :
    (applyInfoConfig s l).pending_cars_queue = s.pending_cars_queue := by
  unfold applyInfoConfig; split <;> rfl

theorem applyContentPath_queue (s : RState) (r : Str) :
    (applyContentPath s r).pending_cars_queue = s.pending_cars_queue := by
  unfold applyContentPath
  split
  · split <;> rfl
  · rfl

theorem applyTrackEq_queue (s : RState) (l : Str) :
    (applyTrackEq s l).pending_cars_queue = s.pending_cars_queue := by
  simp only [applyTrackEq]
  split
  · rfl
  · split
    · split <;> rfl
    · rfl

theorem handleCuts_queue (s : RState) (n : Nat) :
    (handleCuts s n).pending_cars_queue = s.pending_cars_queue := by
  unfold handleCuts
  split
  · rfl
  · split
    · split
      · split <;> rfl
      · rfl
    · rfl

/-- On a queue whose head still waits for a player, the assignment loop
fills and removes exactly that head. -/
theorem pyAssignLoop_cons_none (p : Str) (pc : PC) (rest : List PC) (h : pc.player = none) :
    pyAssignLoop p [] (pc :: rest) = (rest, some pc.car) := by
  unfold pyAssignLoop
  rw [h]
  simp [removeFirst]

theorem handleDriver_queue_inv (s : RState) (g : Str)
    (hinv : ∀ pc ∈ s.pending_cars_queue, pc.player = none) :
    ∀ pc ∈ (handleDriver s g).pending_cars_queue, pc.player = none := by
  simp only [handleDriver]
  split
  · exact hinv
  · cases hq : s.pending_cars_queue with
    | nil =>
      simp only [pyAssignLoop, List.reverse_nil, flushPending_queue]
      intro pc hm
      cases hm
    | cons pc0 rest =>
      have h0 : pc0.player = none := hinv pc0 (hq ▸ List.mem_cons_self pc0 rest)
      rw [pyAssignLoop_cons_none (pyStrip g) pc0 rest h0]
      simp only [flushPending_queue]
      intro pc hm
      exact hinv pc (hq ▸ List.mem_cons_of_mem pc0 hm)

/-- One processed line preserves "every queued car request has its
player unset". -/
theorem processLine_queue_inv (s s' : RState) (raw : Str)
    (h : processLine s raw = some s')
    (hinv : ∀ pc ∈ s.pending_cars_queue, pc.player = none) :
    ∀ pc ∈ s'.pending_cars_queue, pc.player = none := by
  simp only [processLine] at h
  split at h
  · cases h; exact hinv
  · split at h
    · cases h; exact hinv
    · split at h
      · cases h; exact hinv
      · split at h
        · cases h
          simpa only [applyContentPath_queue, applyInfoConfig_queue, applyInfoTrack_queue]
            using hinv
        · split at h
          · cases h
            intro pc hm
            simp only [handleRequested, applyTrackEq_queue, applyInfoConfig_queue,
              applyInfoTrack_queue] at hm
            rcases List.mem_append.mp hm with hm2 | hm2
            · exact hinv pc hm2
            · rw [List.mem_singleton.mp hm2]
          · split at h
            · cases h
              refine handleDriver_queue_inv _ _ ?_
              intro pc hm
              rw [applyTrackEq_queue, applyInfoConfig_queue, applyInfoTrack_queue] at hm
              exact hinv pc hm
            · split at h
              · cases h
                intro pc hm
                rw [handleCuts_queue, applyTrackEq_queue, applyInfoConfig_queue,
                  applyInfoTrack_queue] at hm
                exact hinv pc hm
              · split at h
                · split at h
                  · cases h
                    intro pc hm
                    simp only [applyTrackEq_queue, applyInfoConfig_queue,
                      applyInfoTrack_queue] at hm
                    exact hinv pc hm
                  · cases h
                · cases h
                  intro pc hm
                  rw [applyTrackEq_queue, applyInfoConfig_queue, applyInfoTrack_queue] at hm
                  exact hinv pc hm

theorem runLines_queue_inv (script : List Str) : ∀ s : RState,
    (∀ pc ∈ s.pending_cars_queue, pc.player = none) →
    ∀ pc ∈ (runLines s script).1.pending_cars_queue, pc.player = none := by
  induction script with
  | nil => intro s hinv; exact hinv
  | cons l ls ih =>
    intro s hinv
    simp only [runLines]
    cases hp : processLine s l with
    | some s2 => exact ih s2 (processLine_queue_inv s s2 l hp hinv)
    | none => exact hinv

/-- Claim C10: in every state the reconciler reaches from the initial
state — i.e. at every point between processed lines — every element of
the pending car-request queue has its player unset; a driver-accepted
line that fills a request's player also removes that request within the
same line-processing step, so a filled request is never observable. -/
theorem C10_queue_players_unset (script : List Str) :
    ∀ pc ∈ (runLines initState script).1.pending_cars_queue, pc.player = none :=
  runLines_queue_inv script initState (by intro pc hm; cases hm)

/-- Claim C10, witness: after one car-request line the queue holds
exactly the playerless request for `A`. -/
theorem C10_queue_players_unset_witness :
    (⟨none, "A".data⟩ : PC)
        ∈ (runLines initState (["REQUESTED CAR: A"].map String.data)).1.pending_cars_queue
    ∧ (⟨none, "A".data⟩ : PC).player = none :=
  ⟨by decide,
   C10_queue_players_unset (["REQUESTED CAR: A"].map String.data) ⟨none, "A".data⟩ (by decide)⟩

end ACStats
